import Mathlib

/-!
Verification of the pyorient connection/session layer (pyorient/orient.py).

This file gives a shallow embedding of `OrientSocket` (connect, read, write,
close) and of the `OrientDB` facade (message dispatch, session tokens, the
facade operations), together with theorems about exact-length framed reads,
the handshake version gate, auth-token precedence and the shape of facade
results.  Bytes are modelled as `Nat` values below 256, byte strings as
`List Nat`, and exceptions as an explicit error type; a method that mutates
the object is a function returning the new state.
-/

namespace PyOrient

/-- Exception values raised by orient.py, mirroring the classes it imports
from pyorient.exceptions.  `selectPropagated` stands for the OS-level
select.error that read re-raises unchanged (orient.py line 117). -/
inductive PyOrientError
  | connectionException (msg : String)
  | connectionPoolException (msg : String)
  | wrongProtocolVersionException (msg : String)
  | badMethodCallException (msg : String)
  | selectPropagated
  deriving DecidableEq

/-- Modelled from the spec: the exception class hierarchy lives in
pyorient/exceptions.py, which is not part of the sources under src/.  Spec
section 7 groups "refused connect, mid-stream disconnect, short initial
handshake read, readiness-wait error" under the ConnectionError kind, so both
PyOrientConnectionException and PyOrientConnectionPoolException count as
ConnectionError-kind failures. -/
def PyOrientError.isConnectionError : PyOrientError → Bool
  | .connectionException _ => true
  | .connectionPoolException _ => true
  | _ => false

/-- Serialization modes (spec section 3: CSV-document or binary).  orient.py
initialises sockets with SERIALIZATION_DOCUMENT2CSV from pyorient.constants. -/
inductive SerializationKind
  | document2csv
  | binary
  deriving DecidableEq

/-- State of one OrientSocket (orient.py lines 37-49).  `sock_open` models
whether the underlying OS socket handle is open.  The `cluster_map` field (an
external Information object from pyorient.types, not under src/) is omitted:
no claim and no code path in orient.py reads or writes it besides its
construction. -/
structure OrientSocket where
  connected : Bool
  host : String
  port : Int
  sock_open : Bool
  protocol : Int
  session_id : Int
  auth_token : List Nat
  db_opened : Option String
  serialization_type : SerializationKind
  in_transaction : Bool
  deriving DecidableEq

/-- OrientSocket.__init__ (orient.py lines 37-49): constructed disconnected,
protocol and session id -1, empty auth token, a fresh OS socket object. -/
def OrientSocket.init (host : String) (port : Int) : OrientSocket :=
  { connected := false
    host := host
    port := port
    sock_open := true
    protocol := -1
    session_id := -1
    auth_token := []
    db_opened := none
    serialization_type := .document2csv
    in_transaction := false }

/-- struct.unpack of a big-endian signed 16-bit integer from two bytes
(orient.py line 75). -/
def unpackShortBE (b0 b1 : Nat) : Int :=
  let u : Nat := b0 * 256 + b1
  if u < 32768 then (u : Int) else (u : Int) - 65536

/-- OrientSocket.connect (orient.py lines 57-83).  `supported` stands for
SUPPORTED_PROTOCOL (imported from pyorient.constants, not under src/), kept
as a parameter.  `first_recv` is the byte string the initial `recv(2)`
returned, hence at most 2 bytes; the code checks `len(_value) != 2` and a
list that is not exactly two bytes takes the disconnect branch, which closes
the socket and raises PyOrientConnectionPoolException.  Otherwise the decoded
version is stored in `protocol` before the gate check, the gate raises
PyOrientWrongProtocolVersionException when the version exceeds `supported`
(leaving `connected` untouched, since that exception is not a socket.error),
and on success `connected` is set to true.  The OS-level socket.error branch
(lines 81-83) is outside this model: a delivered `first_recv` means the
OS-level connect and recv succeeded.  The result pairs the exception raised
(if any) with the post-call state. -/
def OrientSocket.connect (supported : Int) (s : OrientSocket)
    (first_recv : List Nat) : Option PyOrientError × OrientSocket :=
  let s1 : OrientSocket := { s with sock_open := true }
  match first_recv with
  | [b0, b1] =>
    let proto := unpackShortBE b0 b1
    let s2 : OrientSocket := { s1 with protocol := proto }
    if proto > supported then
      (some (.wrongProtocolVersionException
          ("Protocol version " ++ toString proto ++
           " is not supported yet by this client.")), s2)
    else
      (none, { s2 with connected := true })
  | _ =>
    (some (.connectionPoolException "Server sent empty string"),
     { s1 with sock_open := false })

/-- OrientSocket.close (orient.py lines 85-93): resets host, port, protocol
and session id, closes the OS handle and clears `connected`.  Python's
socket.close() on an already-closed socket raises no error, so close is a
total function. -/
def OrientSocket.close (s : OrientSocket) : OrientSocket :=
  { s with
    host := ""
    port := 0
    protocol := -1
    session_id := -1
    sock_open := false
    connected := false }

/-- OrientSocket.write (orient.py lines 95-96): a single send delegated to
the OS; `n_sent` is how many bytes the OS accepted, at most the buffer
length.  No state is changed. -/
def OrientSocket.write (s : OrientSocket) (buff : List Nat) (n_sent : Nat) :
    Nat × OrientSocket :=
  (min n_sent buff.length, s)

/-- Result of a read call: the requested bytes, a raised exception, or a
blocked call (the outer select loop retrying / recv waiting for data). -/
inductive ReadResult
  | ok (bytes : List Nat)
  | err (e : PyOrientError)
  | blocked
  deriving DecidableEq

/-- Outcome of the select.select call (orient.py lines 113-114): data ready,
the socket reported in the error list, neither (timeout, the outer loop
retries), or select itself raising.  When the ready list is non-empty the
code takes the ready branch first, which `.ready` covers. -/
inductive SelectOutcome
  | ready
  | inError
  | timeout
  | failed
  deriving DecidableEq

/-- The inner recv_into loop of OrientSocket.read (orient.py lines 121-137).
`chunks` is the sequence of deliveries the underlying stream makes: each
recv_into call returns the next delivery, capped at the bytes still needed
(a real socket keeps any excess buffered; under the theorems below the cap
never truncates because the delivery sizes sum to the requested length).
A zero-byte delivery means the peer closed the connection: the code closes
the OS socket and raises PyOrientConnectionException without touching
`connected`.  Exhausting `chunks` with bytes still needed corresponds to a
recv that blocks waiting for data: `.blocked`. -/
def OrientSocket.recvIntoLoop (s : OrientSocket) (chunks : List (List Nat))
    (len_to_read : Nat) (acc : List Nat) : ReadResult × OrientSocket :=
  if len_to_read = 0 then (.ok acc, s)
  else
    match chunks with
    | [] => (.blocked, s)
    | c :: rest =>
      let delivered := c.take len_to_read
      if delivered.length = 0 then
        (.err (.connectionException "Server seems to have went down"),
         { s with sock_open := false })
      else
        OrientSocket.recvIntoLoop s rest (len_to_read - delivered.length)
          (acc ++ delivered)

/-- OrientSocket.read (orient.py lines 105-142), one iteration of the outer
select loop: on `.ready` run the recv_into loop on the delivered chunks; if
the socket shows up in the error list close it and raise
PyOrientConnectionException; if select itself fails set connected to false
and propagate the error; on timeout the outer while-True loop retries, which
the model reports as `.blocked`. -/
def OrientSocket.read (s : OrientSocket) (sel : SelectOutcome)
    (chunks : List (List Nat)) (len_to_read : Nat) :
    ReadResult × OrientSocket :=
  match sel with
  | .ready => OrientSocket.recvIntoLoop s chunks len_to_read []
  | .inError =>
    (.err (.connectionException "Socket error"), { s with sock_open := false })
  | .failed => (.err .selectPropagated, { s with connected := false })
  | .timeout => (.blocked, s)

/-- Phase of a Message handle: resolved by get_message, then prepared, then
sent (the prepare/send/fetch_response contract of spec section 3). -/
inductive MsgPhase
  | resolved
  | prepared
  | sent
  deriving DecidableEq

/-- Modelled from the spec: the Message capability (pyorient.messages.*, not
under src/).  A resolved message is bound to the connection and carries the
session token injected by get_message; prepare and send advance its phase. -/
structure Message where
  command : String
  conn : OrientSocket
  token : Option (List Nat)
  phase : MsgPhase
  deriving DecidableEq

/-- Modelled from the spec: Message.prepare(args) returns the message ready
to be sent; the concrete wire encoding of the arguments is external. -/
def Message.prepare (m : Message) (_args : List String) : Message :=
  { m with phase := .prepared }

/-- Modelled from the spec: Message.send() writes the request frame through
the bound socket and returns the message. -/
def Message.send (m : Message) : Message :=
  { m with phase := .sent }

/-- Modelled from the spec: the typed result decoded by fetch_response(),
abstract here and identified by the message it answers. -/
structure DecodedResponse where
  ofMessage : Message
  deriving DecidableEq

/-- Modelled from the spec: fetch_response() reads and decodes the response
frame of the message just sent. -/
def Message.fetch_response (m : Message) : DecodedResponse :=
  ⟨m⟩

/-- OrientDB facade state (orient.py lines 146-202): the bound OrientSocket
and the facade-level default token `_auth_token` (the class attribute,
initially None, written by set_session_token). -/
structure OrientDB where
  connection : OrientSocket
  facade_auth_token : Option (List Nat)
  deriving DecidableEq

/-- OrientDB.__init__ (orient.py lines 195-202), branch where `host` already
is an OrientSocket: it is used directly as the connection. -/
def OrientDB.from_socket (conn : OrientSocket) : OrientDB :=
  { connection := conn, facade_auth_token := none }

/-- OrientDB.__init__ (orient.py lines 195-202), branch where `host` is a
hostname: a fresh OrientSocket is built. -/
def OrientDB.from_host (host : String) (port : Int) : OrientDB :=
  OrientDB.from_socket (OrientSocket.init host port)

/-- OrientDB.set_session_token (orient.py lines 213-215): writes the
facade-level default token and returns the client. -/
def OrientDB.set_session_token (db : OrientDB) (token : List Nat) : OrientDB :=
  { db with facade_auth_token := some token }

/-- OrientDB.get_session_token (orient.py lines 217-220): reads the
connection's auth_token, not the facade default. -/
def OrientDB.get_session_token (db : OrientDB) : List Nat :=
  db.connection.auth_token

/-- The keys of the _Messages class attribute (orient.py lines 165-193). -/
def messagesTable : List String :=
  ["ConnectMessage", "ShutdownMessage",
   "DbOpenMessage", "DbCloseMessage", "DbExistsMessage", "DbCreateMessage",
   "DbDropMessage", "DbCountRecordsMessage", "DbReloadMessage",
   "DbSizeMessage", "DbListMessage",
   "DataClusterAddMessage", "DataClusterCountMessage",
   "DataClusterDataRangeMessage", "DataClusterDropMessage",
   "RecordCreateMessage", "RecordDeleteMessage", "RecordLoadMessage",
   "RecordUpdateMessage",
   "CommandMessage", "TxCommitMessage"]

/-- OrientDB.get_message (orient.py lines 410-456): look the command up in
_Messages, instantiate the message class bound to the connection, and inject
the authoritative token — the connection's auth_token when it is non-empty,
otherwise the facade default.  A command absent from the dict raises the
KeyError re-thrown as PyOrientBadMethodCallException ("Unable to find
command " followed by str of the KeyError, which renders the quoted key; the
quotes are dropped here).  The `command=None` default parameter, under which
the Python function would fall through and return None, is used by no caller
in the file and is not modelled. -/
def OrientDB.get_message (db : OrientDB) (command : String) :
    Except PyOrientError Message :=
  if command ∈ messagesTable then
    Except.ok
      { command := command
        conn := db.connection
        token :=
          if db.connection.auth_token ≠ [] then some db.connection.auth_token
          else db.facade_auth_token
        phase := MsgPhase.resolved }
  else
    Except.error
      (PyOrientError.badMethodCallException ("Unable to find command " ++ command))

/-- What a facade operation hands back to the caller: the decoded value of
fetch_response, an explicit Python None (db_create, db_drop and db_open end
with `return None` / bare `return` after completing the chain), a raw
message handle that was never prepared or sent, or a raised error. -/
inductive FacadeResult
  | decoded (r : DecodedResponse)
  | noneResult
  | rawHandle (m : Message)
  | failed (e : PyOrientError)
  deriving DecidableEq

/-- A facade result is a definite outcome — a decoded response, an explicit
None after a completed chain, or a typed error — as opposed to a raw
unprepared, unsent message handle. -/
def FacadeResult.isDecodedOrError : FacadeResult → Bool
  | .decoded _ => true
  | .noneResult => true
  | .failed _ => true
  | .rawHandle _ => false

/-- The facade pattern shared by most operations in orient.py:
get_message(name).prepare(args).send().fetch_response(). -/
def OrientDB.run_operation (db : OrientDB) (name : String)
    (args : List String) : FacadeResult :=
  match db.get_message name with
  | .ok m => .decoded ((m.prepare args).send.fetch_response)
  | .error e => .failed e

/-- The variant used by db_create, db_drop and db_open (orient.py lines
258-331): run the full chain, discard the decoded value and return None. -/
def OrientDB.run_operation_returning_none (db : OrientDB) (name : String)
    (args : List String) : FacadeResult :=
  match db.get_message name with
  | .ok m =>
    let _ := (m.prepare args).send.fetch_response
    .noneResult
  | .error e => .failed e

/-- OrientDB.connect (orient.py lines 224-240). -/
def OrientDB.connect (db : OrientDB) (user password client_id : String) :
    FacadeResult :=
  db.run_operation "ConnectMessage" [user, password, client_id]

/-- OrientDB.db_count_records (orient.py lines 242-256). -/
def OrientDB.db_count_records (db : OrientDB) : FacadeResult :=
  db.run_operation "DbCountRecordsMessage" []

/-- OrientDB.db_create (orient.py lines 258-279): returns None. -/
def OrientDB.db_create (db : OrientDB) (name dbType storage : String) :
    FacadeResult :=
  db.run_operation_returning_none "DbCreateMessage" [name, dbType, storage]

/-- OrientDB.db_drop (orient.py lines 281-291): returns None. -/
def OrientDB.db_drop (db : OrientDB) (name dbType : String) : FacadeResult :=
  db.run_operation_returning_none "DbDropMessage" [name, dbType]

/-- OrientDB.db_exists (orient.py lines 293-303). -/
def OrientDB.db_exists (db : OrientDB) (name dbType : String) : FacadeResult :=
  db.run_operation "DbExistsMessage" [name, dbType]

/-- OrientDB.db_open (orient.py lines 305-331): unpacks the response into
info, clusters and nodes and then executes a bare `return`, i.e. None. -/
def OrientDB.db_open (db : OrientDB) (db_name user password db_type client_id : String) :
    FacadeResult :=
  db.run_operation_returning_none "DbOpenMessage"
    [db_name, user, password, db_type, client_id]

/-- OrientDB.db_reload (orient.py lines 333-335). -/
def OrientDB.db_reload (db : OrientDB) (args : List String) : FacadeResult :=
  db.run_operation "DbReloadMessage" args

/-- OrientDB.shutdown (orient.py lines 337-339). -/
def OrientDB.shutdown (db : OrientDB) (args : List String) : FacadeResult :=
  db.run_operation "ShutdownMessage" args

/-- OrientDB.gremlin (orient.py lines 343-345): a CommandMessage with the
QUERY_GREMLIN marker prepended to the arguments. -/
def OrientDB.gremlin (db : OrientDB) (args : List String) : FacadeResult :=
  db.run_operation "CommandMessage" ("QUERY_GREMLIN" :: args)

/-- OrientDB.command (orient.py lines 347-349). -/
def OrientDB.command (db : OrientDB) (args : List String) : FacadeResult :=
  db.run_operation "CommandMessage" ("QUERY_CMD" :: args)

/-- OrientDB.batch (orient.py lines 351-353). -/
def OrientDB.batch (db : OrientDB) (args : List String) : FacadeResult :=
  db.run_operation "CommandMessage" ("QUERY_SCRIPT" :: args)

/-- OrientDB.query (orient.py lines 355-357). -/
def OrientDB.query (db : OrientDB) (args : List String) : FacadeResult :=
  db.run_operation "CommandMessage" ("QUERY_SYNC" :: args)

/-- OrientDB.query_async (orient.py lines 359-361). -/
def OrientDB.query_async (db : OrientDB) (args : List String) : FacadeResult :=
  db.run_operation "CommandMessage" ("QUERY_ASYNC" :: args)

/-- OrientDB.data_cluster_add (orient.py lines 363-365). -/
def OrientDB.data_cluster_add (db : OrientDB) (args : List String) : FacadeResult :=
  db.run_operation "DataClusterAddMessage" args

/-- OrientDB.data_cluster_count (orient.py lines 367-369). -/
def OrientDB.data_cluster_count (db : OrientDB) (args : List String) : FacadeResult :=
  db.run_operation "DataClusterCountMessage" args

/-- OrientDB.data_cluster_data_range (orient.py lines 371-373). -/
def OrientDB.data_cluster_data_range (db : OrientDB) (args : List String) : FacadeResult :=
  db.run_operation "DataClusterDataRangeMessage" args

/-- OrientDB.data_cluster_drop (orient.py lines 375-377). -/
def OrientDB.data_cluster_drop (db : OrientDB) (args : List String) : FacadeResult :=
  db.run_operation "DataClusterDropMessage" args

/-- OrientDB.db_close (orient.py lines 379-381). -/
def OrientDB.db_close (db : OrientDB) (args : List String) : FacadeResult :=
  db.run_operation "DbCloseMessage" args

/-- OrientDB.db_size (orient.py lines 383-385). -/
def OrientDB.db_size (db : OrientDB) (args : List String) : FacadeResult :=
  db.run_operation "DbSizeMessage" args

/-- OrientDB.db_list (orient.py lines 387-389). -/
def OrientDB.db_list (db : OrientDB) (args : List String) : FacadeResult :=
  db.run_operation "DbListMessage" args

/-- OrientDB.record_create (orient.py lines 391-393). -/
def OrientDB.record_create (db : OrientDB) (args : List String) : FacadeResult :=
  db.run_operation "RecordCreateMessage" args

/-- OrientDB.record_delete (orient.py lines 395-397). -/
def OrientDB.record_delete (db : OrientDB) (args : List String) : FacadeResult :=
  db.run_operation "RecordDeleteMessage" args

/-- OrientDB.record_load (orient.py lines 399-401). -/
def OrientDB.record_load (db : OrientDB) (args : List String) : FacadeResult :=
  db.run_operation "RecordLoadMessage" args

/-- OrientDB.record_update (orient.py lines 403-405). -/
def OrientDB.record_update (db : OrientDB) (args : List String) : FacadeResult :=
  db.run_operation "RecordUpdateMessage" args

/-- OrientDB.tx_commit (orient.py lines 407-408): returns the resolved
TxCommitMessage handle itself, with no prepare, send or fetch_response. -/
def OrientDB.tx_commit (db : OrientDB) : FacadeResult :=
  match db.get_message "TxCommitMessage" with
  | .ok m => .rawHandle m
  | .error e => .failed e

/-- A connection that has been issued a non-empty session token [1], used as
a concrete test fixture. -/
def sampleSocket : OrientSocket :=
  { OrientSocket.init "localhost" 2424 with auth_token := [1] }

/-- A client over `sampleSocket` whose facade default token has been set to
[2] via set_session_token. -/
def sampleDB : OrientDB :=
  (OrientDB.from_socket sampleSocket).set_session_token [2]

/-- Helper for C1: when the delivery sizes sum exactly to the bytes still
needed and every delivery is non-empty, the recv_into loop accumulates all
deliveries in order and leaves the socket state unchanged. -/
theorem recvIntoLoop_complete (s : OrientSocket) (chunks : List (List Nat))
    (acc : List Nat) (hne : ∀ c ∈ chunks, c ≠ []) :
    OrientSocket.recvIntoLoop s chunks ((chunks.map List.length).sum) acc =
      (ReadResult.ok (acc ++ chunks.flatten), s) := by
  induction chunks generalizing acc with
  | nil =>
    simp [OrientSocket.recvIntoLoop]
  | cons c rest ih =>
    have hc : c ≠ [] := hne c (List.mem_cons_self c rest)
    have hlen : 0 < c.length := List.length_pos.mpr hc
    have hrest : ∀ x ∈ rest, x ≠ [] := fun x hx => hne x (List.mem_cons_of_mem c hx)
    have hsum : ((c :: rest).map List.length).sum =
        c.length + (rest.map List.length).sum := by simp
    rw [hsum]
    unfold OrientSocket.recvIntoLoop
    have hne0 : ¬ (c.length + (rest.map List.length).sum = 0) := by omega
    rw [if_neg hne0]
    have htake : c.take (c.length + (rest.map List.length).sum) = c :=
      List.take_of_length_le (by omega)
    simp only [htake]
    rw [if_neg (by omega)]
    have hsub : c.length + (rest.map List.length).sum - c.length =
        (rest.map List.length).sum := by omega
    rw [hsub, ih (acc ++ c) hrest]
    simp [List.append_assoc]

/-- C1: for every requested length n > 0 and every sequence of non-empty
partial deliveries whose sizes sum to n, read(n) under a ready socket
returns exactly those n bytes in the order the stream delivered them —
never a short read — and leaves the socket state unchanged. -/
theorem read_exact_length (s : OrientSocket) (chunks : List (List Nat))
    (n : Nat) (hn : 0 < n) (hne : ∀ c ∈ chunks, c ≠ [])
    (hsum : (chunks.map List.length).sum = n) :
    OrientSocket.read s SelectOutcome.ready chunks n =
      (ReadResult.ok chunks.flatten, s) ∧
    chunks.flatten.length = n := by
  constructor
  · have h := recvIntoLoop_complete s chunks [] hne
    rw [hsum] at h
    simpa [OrientSocket.read] using h
  · rw [← hsum]
    exact List.length_flatten chunks

/-- C1 witness: reading 6 bytes delivered as fragments of sizes 1, 3 and 2
yields exactly those 6 bytes in order. -/
theorem read_exact_length_witness :
    OrientSocket.read (OrientSocket.init "localhost" 2424) SelectOutcome.ready
        [[1], [2, 3, 4], [5, 6]] 6 =
      (ReadResult.ok ([[1], [2, 3, 4], [5, 6]] : List (List Nat)).flatten,
       OrientSocket.init "localhost" 2424) ∧
    ([[1], [2, 3, 4], [5, 6]] : List (List Nat)).flatten.length = 6 :=
  read_exact_length (OrientSocket.init "localhost" 2424) [[1], [2, 3, 4], [5, 6]]
    6 (by decide) (by decide) (by decide)

/-- C2 counterexample: on a socket made connected by a successful handshake,
a read of 10 bytes whose stream delivers 2 bytes and then 0 bytes raises
PyOrientConnectionException — but the connected flag stays true, because the
zero-byte branch only closes the OS socket and never assigns connected. -/
theorem read_zero_byte_keeps_connected :
    ((OrientSocket.read
        (OrientSocket.connect 38 (OrientSocket.init "h" 2424) [0, 38]).2
        SelectOutcome.ready [[1, 2], []] 10).1 =
      ReadResult.err
        (PyOrientError.connectionException "Server seems to have went down")) ∧
    ((OrientSocket.read
        (OrientSocket.connect 38 (OrientSocket.init "h" 2424) [0, 38]).2
        SelectOutcome.ready [[1, 2], []] 10).2.connected = true) :=
  ⟨by decide, by decide⟩

/-- Helper for C2: a zero-byte delivery reached with bytes still needed makes
the recv_into loop raise PyOrientConnectionException and close the OS
socket handle, with every other field — connected included — unchanged. -/
theorem recvIntoLoop_zero_byte (s : OrientSocket) (pre rest : List (List Nat))
    (len : Nat) (acc : List Nat) (hpre : ∀ c ∈ pre, c ≠ [])
    (hlt : (pre.map List.length).sum < len) :
    OrientSocket.recvIntoLoop s (pre ++ [] :: rest) len acc =
      (ReadResult.err
        (PyOrientError.connectionException "Server seems to have went down"),
       { s with sock_open := false }) := by
  induction pre generalizing len acc with
  | nil =>
    have hpos : 0 < len := by simpa using hlt
    unfold OrientSocket.recvIntoLoop
    rw [List.nil_append]
    rw [if_neg (by omega)]
    simp
  | cons c pre' ih =>
    have hc : c ≠ [] := hpre c (List.mem_cons_self c pre')
    have hclen : 0 < c.length := List.length_pos.mpr hc
    have hpre' : ∀ x ∈ pre', x ≠ [] := fun x hx => hpre x (List.mem_cons_of_mem c hx)
    have hsum : ((c :: pre').map List.length).sum =
        c.length + (pre'.map List.length).sum := by simp
    rw [hsum] at hlt
    unfold OrientSocket.recvIntoLoop
    rw [List.cons_append]
    rw [if_neg (by omega)]
    have htake : c.take len = c := List.take_of_length_le (by omega)
    simp only [htake]
    rw [if_neg (by omega)]
    exact ih (len - c.length) (acc ++ c) hpre' (by omega)

/-- C2 amended: while more bytes are still expected, a zero-byte delivery
makes read fail with PyOrientConnectionException (a ConnectionError kind)
and close the OS socket handle, but the connected flag is left unchanged —
the code does not set connected to false on this path. -/
theorem read_zero_byte_disconnect (s : OrientSocket) (pre rest : List (List Nat))
    (n : Nat) (hpre : ∀ c ∈ pre, c ≠ [])
    (hlt : (pre.map List.length).sum < n) :
    OrientSocket.read s SelectOutcome.ready (pre ++ [] :: rest) n =
      (ReadResult.err
        (PyOrientError.connectionException "Server seems to have went down"),
       { s with sock_open := false }) ∧
    ({ s with sock_open := false } : OrientSocket).connected = s.connected ∧
    (PyOrientError.connectionException
      "Server seems to have went down").isConnectionError = true := by
  refine ⟨?_, rfl, rfl⟩
  have h := recvIntoLoop_zero_byte s pre rest n [] hpre hlt
  simpa [OrientSocket.read] using h

/-- C2 amended witness: reading 10 bytes from deliveries of sizes 2 then 0
raises PyOrientConnectionException, closes the OS handle and keeps the
connected flag as it was. -/
theorem read_zero_byte_disconnect_witness :
    OrientSocket.read (OrientSocket.init "h" 2424) SelectOutcome.ready
        ([[1, 2]] ++ [] :: []) 10 =
      (ReadResult.err
        (PyOrientError.connectionException "Server seems to have went down"),
       { OrientSocket.init "h" 2424 with sock_open := false }) ∧
    ({ OrientSocket.init "h" 2424 with sock_open := false } : OrientSocket).connected =
      (OrientSocket.init "h" 2424).connected ∧
    (PyOrientError.connectionException
      "Server seems to have went down").isConnectionError = true :=
  read_zero_byte_disconnect (OrientSocket.init "h" 2424) [[1, 2]] [] 10
    (by decide) (by decide)

/-- C3 counterexample: a server that sends 0xFF 0xFF makes connect decode
protocol = -1; the gate only checks the upper bound, so from a fresh socket
connect succeeds with connected = true and a negative protocol version. -/
theorem connect_accepts_negative_version :
    (OrientSocket.connect 38 (OrientSocket.init "h" 2424) [255, 255]).1 = none ∧
    (OrientSocket.connect 38 (OrientSocket.init "h" 2424) [255, 255]).2.connected = true ∧
    (OrientSocket.connect 38 (OrientSocket.init "h" 2424) [255, 255]).2.protocol < 0 :=
  ⟨by decide, by decide, by decide⟩

/-- C3 amended: connect enforces only an upper bound on the negotiated
version: whenever connect returns without raising, the resulting state has
connected = true and protocol ≤ SUPPORTED_PROTOCOL; there is no lower-bound
check, so a zero or negative version may be recorded with connected = true. -/
theorem connect_upper_bound_only (supported : Int) (s : OrientSocket)
    (first_recv : List Nat)
    (hok : (OrientSocket.connect supported s first_recv).1 = none) :
    (OrientSocket.connect supported s first_recv).2.connected = true ∧
    (OrientSocket.connect supported s first_recv).2.protocol ≤ supported := by
  match first_recv with
  | [] => exact absurd hok (by simp [OrientSocket.connect])
  | [b0] => exact absurd hok (by simp [OrientSocket.connect])
  | b0 :: b1 :: b2 :: t => exact absurd hok (by simp [OrientSocket.connect])
  | [b0, b1] =>
    by_cases hgt : unpackShortBE b0 b1 > supported
    · exact absurd hok (by simp [OrientSocket.connect, hgt])
    · constructor
      · simp [OrientSocket.connect, hgt]
      · simp only [OrientSocket.connect, hgt, if_false]
        omega

/-- C3 amended witness: a successful connect against version bytes 0x00 0x26
ends connected with protocol ≤ 38. -/
theorem connect_upper_bound_only_witness :
    (OrientSocket.connect 38 (OrientSocket.init "h" 2424) [0, 38]).2.connected = true ∧
    (OrientSocket.connect 38 (OrientSocket.init "h" 2424) [0, 38]).2.protocol ≤ 38 :=
  connect_upper_bound_only 38 (OrientSocket.init "h" 2424) [0, 38] (by decide)

/-- C4: when the initial recv(2) of the handshake returns fewer than 2 bytes,
connect raises exactly PyOrientConnectionPoolException ("Server sent empty
string"), which is a ConnectionError-kind failure under the exceptions
hierarchy modelled from the spec — and no other error kind. -/
theorem connect_short_handshake (supported : Int) (s : OrientSocket)
    (first_recv : List Nat) (hlen : first_recv.length < 2) :
    (OrientSocket.connect supported s first_recv).1 =
      some (PyOrientError.connectionPoolException "Server sent empty string") ∧
    (PyOrientError.connectionPoolException
      "Server sent empty string").isConnectionError = true := by
  match first_recv with
  | [] => exact ⟨rfl, rfl⟩
  | [b0] => exact ⟨rfl, rfl⟩
  | b0 :: b1 :: t => simp only [List.length_cons] at hlen; omega

/-- C4 witness: a server that closes after sending exactly one byte makes
connect fail with the ConnectionError-kind pool exception. -/
theorem connect_short_handshake_witness :
    (OrientSocket.connect 38 (OrientSocket.init "h" 2424) [0]).1 =
      some (PyOrientError.connectionPoolException "Server sent empty string") ∧
    (PyOrientError.connectionPoolException
      "Server sent empty string").isConnectionError = true :=
  connect_short_handshake 38 (OrientSocket.init "h" 2424) [0] (by decide)

/-- C5: for every 2-byte big-endian signed version v decoded from the
handshake: when v exceeds the supported maximum, connect raises
PyOrientWrongProtocolVersionException and leaves the connected flag exactly
as it was (in particular it never sets it true); otherwise connect raises
nothing, records protocol = v and sets connected = true. -/
theorem connect_version_gate (supported : Int) (s : OrientSocket)
    (b0 b1 : Nat) (h0 : b0 < 256) (h1 : b1 < 256) :
    (unpackShortBE b0 b1 > supported →
      (OrientSocket.connect supported s [b0, b1]).1 =
        some (PyOrientError.wrongProtocolVersionException
          ("Protocol version " ++ toString (unpackShortBE b0 b1) ++
           " is not supported yet by this client.")) ∧
      (OrientSocket.connect supported s [b0, b1]).2.connected = s.connected) ∧
    (unpackShortBE b0 b1 ≤ supported →
      (OrientSocket.connect supported s [b0, b1]).1 = none ∧
      (OrientSocket.connect supported s [b0, b1]).2.protocol = unpackShortBE b0 b1 ∧
      (OrientSocket.connect supported s [b0, b1]).2.connected = true) := by
  constructor
  · intro hgt
    refine ⟨?_, ?_⟩ <;> simp [OrientSocket.connect, hgt]
  · intro hle
    have hngt : ¬ unpackShortBE b0 b1 > supported := not_lt.mpr hle
    refine ⟨?_, ?_, ?_⟩ <;> simp [OrientSocket.connect, hngt]

/-- C5 witness: with supported maximum 38, version bytes 0x00 0x27 (39)
are rejected with PyOrientWrongProtocolVersionException and the connected
flag of the fresh socket stays as it was. -/
theorem connect_version_gate_witness :
    (OrientSocket.connect 38 (OrientSocket.init "h" 2424) [0, 39]).1 =
      some (PyOrientError.wrongProtocolVersionException
        ("Protocol version " ++ toString (unpackShortBE 0 39) ++
         " is not supported yet by this client.")) ∧
    (OrientSocket.connect 38 (OrientSocket.init "h" 2424) [0, 39]).2.connected =
      (OrientSocket.init "h" 2424).connected :=
  (connect_version_gate 38 (OrientSocket.init "h" 2424) 0 39
    (by decide) (by decide)).1 (by decide)

/-- C6: whenever get_message resolves a message while the connection holds a
non-empty auth token and a facade-level default token is also present, the
token bound to the resolved message is the connection-held one. -/
theorem get_message_connection_token_wins (db : OrientDB) (command : String)
    (m : Message) (hconn : db.connection.auth_token ≠ [])
    (hfac : db.facade_auth_token ≠ none)
    (hres : db.get_message command = Except.ok m) :
    m.token = some db.connection.auth_token := by
  unfold OrientDB.get_message at hres
  by_cases hcmd : command ∈ messagesTable
  · rw [if_pos hcmd] at hres
    injection hres with hm
    subst hm
    show (if db.connection.auth_token ≠ [] then some db.connection.auth_token
          else db.facade_auth_token) = some db.connection.auth_token
    rw [if_pos hconn]
  · rw [if_neg hcmd] at hres
    exact Except.noConfusion hres

/-- C6 witness: on a client whose connection token is [1] and whose facade
default was set to [2], the resolved ConnectMessage carries token [1]. -/
theorem get_message_connection_token_wins_witness :
    Message.token
      { command := "ConnectMessage", conn := sampleSocket,
        token := some [1], phase := MsgPhase.resolved } =
      some sampleDB.connection.auth_token :=
  get_message_connection_token_wins sampleDB "ConnectMessage"
    { command := "ConnectMessage", conn := sampleSocket,
      token := some [1], phase := MsgPhase.resolved }
    (by decide) (by decide) rfl

/-- C7 counterexample: with connection token [1] and facade token [2] set via
set_session_token, the resolved message carries token [1] — the Session-held
connection token, not the explicitly set facade token [2]. -/
theorem set_token_does_not_take_precedence :
    sampleDB.get_message "ConnectMessage" =
      Except.ok
        { command := "ConnectMessage", conn := sampleSocket,
          token := some [1], phase := MsgPhase.resolved } ∧
    sampleDB.facade_auth_token = some [2] ∧
    some ([1] : List Nat) ≠ some ([2] : List Nat) :=
  ⟨rfl, by decide, by decide⟩

/-- C7 amended: precedence runs the other way round: the token set by
set_session_token on the facade is injected into the resolved message only
when the connection-held Session token is empty; a non-empty connection
token always wins. -/
theorem facade_token_used_when_connection_empty (db : OrientDB)
    (command : String) (t : List Nat) (m : Message)
    (hconn : db.connection.auth_token = [])
    (hres : (db.set_session_token t).get_message command = Except.ok m) :
    m.token = some t := by
  unfold OrientDB.get_message OrientDB.set_session_token at hres
  by_cases hcmd : command ∈ messagesTable
  · rw [if_pos hcmd] at hres
    injection hres with hm
    subst hm
    show (if db.connection.auth_token ≠ [] then some db.connection.auth_token
          else some t) = some t
    rw [if_neg (by simp [hconn])]
  · rw [if_neg hcmd] at hres
    exact Except.noConfusion hres

/-- C7 amended witness: on a fresh client (empty connection token) the token
set via set_session_token is the one bound to the resolved message. -/
theorem facade_token_used_when_connection_empty_witness :
    Message.token
      { command := "ConnectMessage",
        conn := (OrientDB.from_host "h" 2424).connection,
        token := some [7], phase := MsgPhase.resolved } =
      some [7] :=
  facade_token_used_when_connection_empty (OrientDB.from_host "h" 2424)
    "ConnectMessage" [7]
    { command := "ConnectMessage",
      conn := (OrientDB.from_host "h" 2424).connection,
      token := some [7], phase := MsgPhase.resolved }
    (by decide) rfl

/-- C8: close, from any state, resets connected to false, port to 0,
protocol to -1, clears the host string and the session id marker, releases
the OS handle, and is idempotent — a second close yields the same state, and
close is a total function so it raises no error. -/
theorem close_resets_and_idempotent (s : OrientSocket) :
    s.close.connected = false ∧
    s.close.port = 0 ∧
    s.close.protocol = -1 ∧
    s.close.host = "" ∧
    s.close.session_id = -1 ∧
    s.close.sock_open = false ∧
    s.close.close = s.close :=
  ⟨rfl, rfl, rfl, rfl, rfl, rfl, rfl⟩

/-- C9 counterexample: tx_commit hands back the raw resolved TxCommitMessage
handle, still unprepared and unsent — neither a decoded fetch_response value
nor a typed error. -/
theorem tx_commit_returns_raw_handle :
    sampleDB.tx_commit =
      FacadeResult.rawHandle
        { command := "TxCommitMessage", conn := sampleSocket,
          token := some [1], phase := MsgPhase.resolved } ∧
    sampleDB.tx_commit.isDecodedOrError = false :=
  ⟨by decide, by decide⟩

/-- C9 amended: every facade operation except tx_commit yields a definite
outcome — the decoded fetch_response value, an explicit None after a
completed prepare/send/fetch_response chain, or a typed error — while
tx_commit alone returns the raw, unprepared, unsent message handle. -/
theorem facade_ops_return_results (db : OrientDB) (a : List String)
    (u p c n t g o : String) :
    (db.connect u p c).isDecodedOrError = true ∧
    db.db_count_records.isDecodedOrError = true ∧
    (db.db_create n t g).isDecodedOrError = true ∧
    (db.db_drop n t).isDecodedOrError = true ∧
    (db.db_exists n t).isDecodedOrError = true ∧
    (db.db_open n u p t o).isDecodedOrError = true ∧
    (db.db_reload a).isDecodedOrError = true ∧
    (db.shutdown a).isDecodedOrError = true ∧
    (db.gremlin a).isDecodedOrError = true ∧
    (db.command a).isDecodedOrError = true ∧
    (db.batch a).isDecodedOrError = true ∧
    (db.query a).isDecodedOrError = true ∧
    (db.query_async a).isDecodedOrError = true ∧
    (db.data_cluster_add a).isDecodedOrError = true ∧
    (db.data_cluster_count a).isDecodedOrError = true ∧
    (db.data_cluster_data_range a).isDecodedOrError = true ∧
    (db.data_cluster_drop a).isDecodedOrError = true ∧
    (db.db_close a).isDecodedOrError = true ∧
    (db.db_size a).isDecodedOrError = true ∧
    (db.db_list a).isDecodedOrError = true ∧
    (db.record_create a).isDecodedOrError = true ∧
    (db.record_delete a).isDecodedOrError = true ∧
    (db.record_load a).isDecodedOrError = true ∧
    (db.record_update a).isDecodedOrError = true ∧
    db.tx_commit.isDecodedOrError = false :=
  ⟨rfl, rfl, rfl, rfl, rfl, rfl, rfl, rfl, rfl, rfl, rfl, rfl, rfl,
   rfl, rfl, rfl, rfl, rfl, rfl, rfl, rfl, rfl, rfl, rfl, rfl⟩

/-- C10: set_session_token and get_session_token do not round-trip:
set_session_token writes the facade default and leaves the connection token
untouched, get_session_token reads the connection token, so after
set_session_token(t) the getter still returns the connection token — on a
fresh client the empty byte sequence — and not t whenever t differs from the
connection token. -/
theorem session_token_no_roundtrip (db : OrientDB) (t : List Nat) :
    (db.set_session_token t).get_session_token = db.connection.auth_token ∧
    (db.set_session_token t).connection.auth_token = db.connection.auth_token ∧
    (t ≠ db.connection.auth_token →
      (db.set_session_token t).get_session_token ≠ t) ∧
    ((OrientDB.from_host "localhost" 2424).set_session_token t).get_session_token = [] := by
  refine ⟨rfl, rfl, ?_, rfl⟩
  intro hne h
  exact hne h.symm

/-- C10 witness: on the sample client (connection token [1]), setting the
facade token to [9] leaves get_session_token returning something other
than [9]. -/
theorem session_token_no_roundtrip_witness :
    (sampleDB.set_session_token [9]).get_session_token ≠ [9] :=
  (session_token_no_roundtrip sampleDB [9]).2.2.1 (by decide)

end PyOrient
